import Mathlib

/-!
Verification development for two cloud-provider resource adapters:
the OpenStack (Octavia) load-balancer operations wrapped in a retry
envelope, and the GCE ForwardingRule reconciliation task.

The definitions below are a shallow embedding of the Go source.  Cloud
API responses are modelled as oracles: a function from the attempt
index to the response that attempt receives.  Errors are modelled as an
inductive type that distinguishes exactly the classifications the code
tests for (not-found, HTTP 409 conflict, the retry wait-timeout) and
collapses everything else to a message, mirroring how wrapping with
fmt.Errorf loses the classification of the wrapped error.
-/

/-- Error type for the OpenStack adapters.  `notFound` models a response
that `isNotFound` recognises, `conflict` an HTTP 409 status
(`gophercloud.ResponseCodeIs(err, http.StatusConflict)`), `waitTimeout`
the distinguished `wait.ErrWaitTimeout`, and `msg` any other error,
including errors wrapped with `fmt.Errorf` (wrapping with `%v` loses
the original classification). -/
inductive OSErr : Type where
  | notFound : OSErr
  | conflict : OSErr
  | waitTimeout : OSErr
  | msg : String → OSErr
deriving DecidableEq, Repr

/-- Embeds `isNotFound(err)` for a non-nil error. -/
def isNotFound (e : OSErr) : Bool :=
  match e with
  | OSErr.notFound => true
  | _ => false

/-- Embeds `gophercloud.ResponseCodeIs(err, http.StatusConflict)`. -/
def isConflict (e : OSErr) : Bool :=
  match e with
  | OSErr.conflict => true
  | _ => false

/-- The distinguishing error every adapter returns when the
load-balancer client handle is nil. -/
def lbUnavailableErr : OSErr :=
  OSErr.msg "loadbalancer support not available in this deployment"

structure Monitor where
  id : String
deriving DecidableEq, Repr

structure Pool where
  id : String
deriving DecidableEq, Repr

structure Member where
  id : String
deriving DecidableEq, Repr

structure Listener where
  id : String
deriving DecidableEq, Repr

structure LoadBalancer where
  id : String
deriving DecidableEq, Repr

structure LBStats where
  bytesIn : Nat
deriving DecidableEq, Repr

structure Server where
  id : String
deriving DecidableEq, Repr

/-- The only part of `openstackCloud` the load-balancer adapters
inspect: whether `c.LoadBalancerClient()` is nil. -/
structure OpenstackCloud where
  hasLoadBalancerClient : Bool
deriving DecidableEq, Repr

/-- Modelled from the spec: the generic retry envelope
`vfs.RetryWithBackoff` (the utility itself is outside the shown source;
the spec gives its contract).  `op i s` runs attempt `i` of the closure
with the captured variables in state `s` and yields the new state, the
`done` flag and the error.  `done = true` stops and propagates that
attempt's result; `done = false` retries after backoff; exhausting the
policy's step count without `done = true` yields `(false, lastErr)`,
the last attempt's error (possibly nil). -/
def retryLoop {σ : Type} (op : Nat → σ → σ × Bool × Option OSErr) :
    Nat → Nat → σ → σ × Bool × Option OSErr
  | 0, _, s => (s, false, none)
  | fuel + 1, i, s =>
    let r := op i s
    if r.2.1 then r
    else if fuel = 0 then (r.1, false, r.2.2)
    else retryLoop op fuel (i + 1) r.1

/-- Modelled from the spec: `vfs.RetryWithBackoff` with a policy of
`steps` attempts (backoff delays are timing only and are not modelled). -/
def retryWithBackoff {σ : Type} (steps : Nat)
    (op : Nat → σ → σ × Bool × Option OSErr) (init : σ) :
    σ × Bool × Option OSErr :=
  retryLoop op steps 0 init

/-- `memberBackoff.Steps` from the source. -/
def memberBackoffSteps : Nat := 10

/-- Embeds `createPoolMonitor`.  `createResp i` is the result of
`monitors.Create(...).Extract()` on attempt `i`. -/
def createPoolMonitor (c : OpenstackCloud) (steps : Nat)
    (createResp : Nat → Except OSErr Monitor) :
    Option Monitor × Option OSErr :=
  if c.hasLoadBalancerClient = false then (none, some lbUnavailableErr)
  else
    let r := retryWithBackoff steps (fun i _ =>
      match createResp i with
      | Except.ok m => (some m, true, none)
      | Except.error _ => (none, false, some (OSErr.msg "failed to create pool monitor"))) none
    if r.2.1 = false then (r.1, some (r.2.2.getD OSErr.waitTimeout))
    else (r.1, none)

/-- Embeds `listMonitors`.  The page fetch and the page extraction are
collapsed into one response per attempt; both failure modes return a
wrapped error and leave `done = false`. -/
def listMonitors (c : OpenstackCloud) (steps : Nat)
    (listResp : Nat → Except OSErr (List Monitor)) :
    List Monitor × Option OSErr :=
  if c.hasLoadBalancerClient = false then ([], some lbUnavailableErr)
  else
    let r := retryWithBackoff steps (fun i s =>
      match listResp i with
      | Except.ok l => (l, true, none)
      | Except.error _ => (s, false, some (OSErr.msg "failed to list monitors"))) []
    if r.2.1 = false then (r.1, some (r.2.2.getD OSErr.waitTimeout))
    else (r.1, none)

/-- The retry closure of `deleteMonitor`: a delete error other than
not-found wraps and reports not-done-with-error, a not-found response
concludes successfully, and a nil-error delete reports not-done so the
loop runs again.  (The wrapped message says "pool", as in the source.) -/
def deleteMonitorAttempt (deleteResp : Nat → Option OSErr) (i : Nat) (_ : Unit) :
    Unit × Bool × Option OSErr :=
  match deleteResp i with
  | some e =>
    if isNotFound e then ((), true, none)
    else ((), false, some (OSErr.msg "error deleting pool"))
  | none => ((), false, none)

/-- Embeds `deleteMonitor`.  `deleteResp i` is the error (if any) of
`monitors.Delete(...).ExtractErr()` on attempt `i`. -/
def deleteMonitor (c : OpenstackCloud) (steps : Nat) (monitorID : String)
    (deleteResp : Nat → Option OSErr) : Option OSErr :=
  if c.hasLoadBalancerClient = false then some lbUnavailableErr
  else
    let r := retryWithBackoff steps (deleteMonitorAttempt deleteResp) ()
    match r.2.2 with
    | some e2 => some e2
    | none => if r.2.1 then none else some OSErr.waitTimeout

/-- The retry closure of `deletePool`. -/
def deletePoolAttempt (deleteResp : Nat → Option OSErr) (i : Nat) (_ : Unit) :
    Unit × Bool × Option OSErr :=
  match deleteResp i with
  | some e =>
    if isNotFound e then ((), true, none)
    else ((), false, some (OSErr.msg "error deleting pool"))
  | none => ((), false, none)

/-- Embeds `deletePool`. -/
def deletePool (c : OpenstackCloud) (steps : Nat) (poolID : String)
    (deleteResp : Nat → Option OSErr) : Option OSErr :=
  if c.hasLoadBalancerClient = false then some lbUnavailableErr
  else
    let r := retryWithBackoff steps (deletePoolAttempt deleteResp) ()
    match r.2.2 with
    | some e2 => some e2
    | none => if r.2.1 then none else some OSErr.waitTimeout

/-- The retry closure of `deleteListener`. -/
def deleteListenerAttempt (deleteResp : Nat → Option OSErr) (i : Nat) (_ : Unit) :
    Unit × Bool × Option OSErr :=
  match deleteResp i with
  | some e =>
    if isNotFound e then ((), true, none)
    else ((), false, some (OSErr.msg "error deleting listener"))
  | none => ((), false, none)

/-- Embeds `deleteListener`. -/
def deleteListener (c : OpenstackCloud) (steps : Nat) (listenerID : String)
    (deleteResp : Nat → Option OSErr) : Option OSErr :=
  if c.hasLoadBalancerClient = false then some lbUnavailableErr
  else
    let r := retryWithBackoff steps (deleteListenerAttempt deleteResp) ()
    match r.2.2 with
    | some e2 => some e2
    | none => if r.2.1 then none else some OSErr.waitTimeout

/-- The retry closure of `deleteLB`. -/
def deleteLBAttempt (deleteResp : Nat → Option OSErr) (i : Nat) (_ : Unit) :
    Unit × Bool × Option OSErr :=
  match deleteResp i with
  | some e =>
    if isNotFound e then ((), true, none)
    else ((), false, some (OSErr.msg "error deleting loadbalancer"))
  | none => ((), false, none)

/-- Embeds `deleteLB`. -/
def deleteLB (c : OpenstackCloud) (steps : Nat) (lbID : String)
    (deleteResp : Nat → Option OSErr) : Option OSErr :=
  if c.hasLoadBalancerClient = false then some lbUnavailableErr
  else
    let r := retryWithBackoff steps (deleteLBAttempt deleteResp) ()
    match r.2.2 with
    | some e2 => some e2
    | none => if r.2.1 then none else some OSErr.waitTimeout

/-- Embeds `createLB`.  On a failed attempt the captured `i` variable
is left unchanged (it is only assigned on success). -/
def createLB (c : OpenstackCloud) (steps : Nat)
    (createResp : Nat → Except OSErr LoadBalancer) :
    Option LoadBalancer × Option OSErr :=
  if c.hasLoadBalancerClient = false then (none, some lbUnavailableErr)
  else
    let r := retryWithBackoff steps (fun i s =>
      match createResp i with
      | Except.ok v => (some v, true, none)
      | Except.error _ => (s, false, some (OSErr.msg "error creating loadbalancer"))) none
    match r.2.2 with
    | some e2 => (r.1, some e2)
    | none => if r.2.1 then (r.1, none) else (r.1, some OSErr.waitTimeout)

/-- Embeds `getLB`.  The closure propagates the raw (unwrapped) error. -/
def getLB (c : OpenstackCloud) (steps : Nat) (loadbalancerID : String)
    (getResp : Nat → Except OSErr LoadBalancer) :
    Option LoadBalancer × Option OSErr :=
  if c.hasLoadBalancerClient = false then (none, some lbUnavailableErr)
  else
    let r := retryWithBackoff steps (fun i _ =>
      match getResp i with
      | Except.ok lb => (some lb, true, none)
      | Except.error e => (none, false, some e)) none
    if r.2.1 = false then (r.1, some (r.2.2.getD OSErr.waitTimeout))
    else (r.1, none)

/-- Embeds `listLBs`.  With a nil client it returns the empty list with
a nil error ("skip error because cluster delete will otherwise fail"). -/
def listLBs (c : OpenstackCloud) (steps : Nat)
    (listResp : Nat → Except OSErr (List LoadBalancer)) :
    List LoadBalancer × Option OSErr :=
  if c.hasLoadBalancerClient = false then ([], none)
  else
    let r := retryWithBackoff steps (fun i s =>
      match listResp i with
      | Except.ok l => (l, true, none)
      | Except.error _ => (s, false, some (OSErr.msg "failed to list loadbalancers"))) []
    if r.2.1 = false then (r.1, some (r.2.2.getD OSErr.waitTimeout))
    else (r.1, none)

/-- Embeds `getLBStats`.  With a nil client it returns nil stats with a
nil error. -/
def getLBStats (c : OpenstackCloud) (steps : Nat) (loadbalancerID : String)
    (statsResp : Nat → Except OSErr LBStats) :
    Option LBStats × Option OSErr :=
  if c.hasLoadBalancerClient = false then (none, none)
  else
    let r := retryWithBackoff steps (fun i _ =>
      match statsResp i with
      | Except.ok st => (some st, true, none)
      | Except.error _ => (none, false, some (OSErr.msg "Error getting load balancer stats"))) none
    if r.2.1 = false then (r.1, some (r.2.2.getD OSErr.waitTimeout))
    else (r.1, none)

/-- Embeds `getPool`.  The closure propagates the raw error. -/
def getPool (c : OpenstackCloud) (steps : Nat) (poolID : String)
    (getResp : Nat → Except OSErr Pool) :
    Option Pool × Option OSErr :=
  if c.hasLoadBalancerClient = false then (none, some lbUnavailableErr)
  else
    let r := retryWithBackoff steps (fun i _ =>
      match getResp i with
      | Except.ok p => (some p, true, none)
      | Except.error e => (none, false, some e)) none
    if r.2.1 = false then (r.1, some (r.2.2.getD OSErr.waitTimeout))
    else (r.1, none)

/-- Embeds `getPoolMember`.  The closure propagates the raw error. -/
def getPoolMember (c : OpenstackCloud) (steps : Nat) (poolID : String)
    (memberID : String) (getResp : Nat → Except OSErr Member) :
    Option Member × Option OSErr :=
  if c.hasLoadBalancerClient = false then (none, some lbUnavailableErr)
  else
    let r := retryWithBackoff steps (fun i _ =>
      match getResp i with
      | Except.ok m => (some m, true, none)
      | Except.error e => (none, false, some e)) none
    if r.2.1 = false then (r.1, some (r.2.2.getD OSErr.waitTimeout))
    else (r.1, none)

/-- The retry closure of `updateMemberInPool`.  A not-found update
error concludes successfully (the member is already gone); a 409
conflict retries with a nil error; any other error retries with the
wrapped error, which therefore only surfaces if it is the error of the
final, exhausted attempt.  On any error the captured member variable is
nil. -/
def updateMemberAttempt (updateResp : Nat → Except OSErr Member) (i : Nat)
    (_ : Option Member) : Option Member × Bool × Option OSErr :=
  match updateResp i with
  | Except.ok m => (some m, true, none)
  | Except.error e =>
    if isNotFound e then (none, true, none)
    else if isConflict e then (none, false, none)
    else (none, false, some (OSErr.msg "failed to update pool membership"))

/-- Embeds `updateMemberInPool` (uses `memberBackoff`, so 10 steps). -/
def updateMemberInPool (c : OpenstackCloud) (poolID : String)
    (memberID : String) (updateResp : Nat → Except OSErr Member) :
    Option Member × Option OSErr :=
  if c.hasLoadBalancerClient = false then (none, some lbUnavailableErr)
  else
    let r := retryWithBackoff memberBackoffSteps (updateMemberAttempt updateResp) none
    if r.2.1 = false then (r.1, some (r.2.2.getD OSErr.waitTimeout))
    else (r.1, none)

/-- The retry closure of `associateToPool`.  `getMemberResp i` is the
result of `v2pools.GetMember(..., poolID, server.ID).Extract()` on
attempt `i` (`Except.ok none` models a nil member returned without
error); `createMemberResp i` the result of `v2pools.CreateMember(...)`.
If the fetch errors or yields no membership, the member is created;
otherwise the existing membership is returned with no mutation. -/
def associateAttempt (getMemberResp : Nat → Except OSErr (Option Member))
    (createMemberResp : Nat → Except OSErr Member) (i : Nat)
    (_ : Option Member) : Option Member × Bool × Option OSErr :=
  match getMemberResp i with
  | Except.ok (some m) => (some m, true, none)
  | _ =>
    match createMemberResp i with
    | Except.ok m => (some m, true, none)
    | Except.error _ => (none, false, some (OSErr.msg "failed to create pool association"))

/-- Embeds `associateToPool`: fetch the membership for the server, fall
through to create when the fetch errors or yields nothing, and treat an
existing membership as success with no mutation. -/
def associateToPool (c : OpenstackCloud) (steps : Nat) (server : Server)
    (poolID : String) (getMemberResp : Nat → Except OSErr (Option Member))
    (createMemberResp : Nat → Except OSErr Member) :
    Option Member × Option OSErr :=
  if c.hasLoadBalancerClient = false then (none, some lbUnavailableErr)
  else
    let r := retryWithBackoff steps (associateAttempt getMemberResp createMemberResp) none
    if r.2.1 = false then (r.1, some (r.2.2.getD OSErr.waitTimeout))
    else (r.1, none)

/-- Embeds `createPool`. -/
def createPool (c : OpenstackCloud) (steps : Nat)
    (createResp : Nat → Except OSErr Pool) :
    Option Pool × Option OSErr :=
  if c.hasLoadBalancerClient = false then (none, some lbUnavailableErr)
  else
    let r := retryWithBackoff steps (fun i _ =>
      match createResp i with
      | Except.ok p => (some p, true, none)
      | Except.error _ => (none, false, some (OSErr.msg "failed to create pool"))) none
    if r.2.1 = false then (r.1, some (r.2.2.getD OSErr.waitTimeout))
    else (r.1, none)

/-- Embeds `listPoolMembers` (page fetch and extraction collapsed into
one response per attempt). -/
def listPoolMembers (c : OpenstackCloud) (steps : Nat) (poolID : String)
    (listResp : Nat → Except OSErr (List Member)) :
    List Member × Option OSErr :=
  if c.hasLoadBalancerClient = false then ([], some lbUnavailableErr)
  else
    let r := retryWithBackoff steps (fun i s =>
      match listResp i with
      | Except.ok l => (l, true, none)
      | Except.error _ => (s, false, some (OSErr.msg "failed to list members"))) []
    if r.2.1 = false then (r.1, some (r.2.2.getD OSErr.waitTimeout))
    else (r.1, none)

/-- Embeds `listPools`. -/
def listPools (c : OpenstackCloud) (steps : Nat)
    (listResp : Nat → Except OSErr (List Pool)) :
    List Pool × Option OSErr :=
  if c.hasLoadBalancerClient = false then ([], some lbUnavailableErr)
  else
    let r := retryWithBackoff steps (fun i s =>
      match listResp i with
      | Except.ok l => (l, true, none)
      | Except.error _ => (s, false, some (OSErr.msg "failed to list pools"))) []
    if r.2.1 = false then (r.1, some (r.2.2.getD OSErr.waitTimeout))
    else (r.1, none)

/-- Embeds `listListeners`. -/
def listListeners (c : OpenstackCloud) (steps : Nat)
    (listResp : Nat → Except OSErr (List Listener)) :
    List Listener × Option OSErr :=
  if c.hasLoadBalancerClient = false then ([], some lbUnavailableErr)
  else
    let r := retryWithBackoff steps (fun i s =>
      match listResp i with
      | Except.ok l => (l, true, none)
      | Except.error _ => (s, false, some (OSErr.msg "failed to list listeners"))) []
    if r.2.1 = false then (r.1, some (r.2.2.getD OSErr.waitTimeout))
    else (r.1, none)

/-- Embeds `createListener`. -/
def createListener (c : OpenstackCloud) (steps : Nat)
    (createResp : Nat → Except OSErr Listener) :
    Option Listener × Option OSErr :=
  if c.hasLoadBalancerClient = false then (none, some lbUnavailableErr)
  else
    let r := retryWithBackoff steps (fun i _ =>
      match createResp i with
      | Except.ok l => (some l, true, none)
      | Except.error _ => (none, false, some (OSErr.msg "unabled to create listener"))) none
    if r.2.1 = false then (r.1, some (r.2.2.getD OSErr.waitTimeout))
    else (r.1, none)

/-! ## GCE ForwardingRule task -/

/-- Embeds `fi.ValueOf` on a string pointer: nil becomes the empty
string. -/
def valueOf (o : Option String) : String := o.getD ""

/-- Error type for the GCE side.  `notFound` models an error that
`gce.IsNotFound` recognises; `msg` any other error, including wrapped
ones. -/
inductive GErr : Type where
  | notFound : GErr
  | msg : String → GErr
deriving DecidableEq, Repr

/-- Embeds `gce.IsNotFound(err)`. -/
def gceIsNotFound (e : GErr) : Bool :=
  match e with
  | GErr.notFound => true
  | _ => false

/-- Reference to a GCE target pool (`TargetPool` task); only its name
is relevant here. -/
structure TargetPool where
  name : Option String
deriving DecidableEq, Repr

/-- Reference to a GCE backend service (`BackendService` task). -/
structure BackendService where
  name : Option String
deriving DecidableEq, Repr

/-- Reference to a GCE network (`Network` task); `project` is the
optional owning project override read by `RenderGCE`. -/
structure Network where
  name : Option String
  project : Option String
deriving DecidableEq, Repr

/-- Reference to a GCE subnetwork (`Subnet` task). -/
structure Subnet where
  name : Option String
deriving DecidableEq, Repr

/-- Reference to a GCE address (`Address` task); `ipAddress` is its
optional literal IP. -/
structure Address where
  name : Option String
  ipAddress : Option String
deriving DecidableEq, Repr

/-- The `ForwardingRule` task struct.  Pointer fields become `Option`;
the Go nil map is `none` and a non-nil map is `some` an association
list; `labelFingerprint` is the unexported concurrency token set only
on the actual resource returned by `Find`. -/
structure ForwardingRule where
  name : Option String
  lifecycle : String
  portRange : Option String
  ports : List String
  targetPool : Option TargetPool
  ipAddress : Option Address
  ruleIPAddress : Option String
  ipProtocol : String
  loadBalancingScheme : Option String
  network : Option Network
  subnetwork : Option Subnet
  backendService : Option BackendService
  region : String
  labels : Option (List (String × String))
  labelFingerprint : String
deriving DecidableEq, Repr

/-- The Go zero value `&ForwardingRule{}`, compared against the
changeset by `reflect.DeepEqual`. -/
def emptyForwardingRule : ForwardingRule :=
  { name := none
    lifecycle := ""
    portRange := none
    ports := []
    targetPool := none
    ipAddress := none
    ruleIPAddress := none
    ipProtocol := ""
    loadBalancingScheme := none
    network := none
    subnetwork := none
    backendService := none
    region := ""
    labels := none
    labelFingerprint := "" }

/-- The parts of `gce.GCECloud` read here: `Project()` and `Region()`. -/
structure GCECloudSpec where
  project : String
  region : String
deriving DecidableEq, Repr

/-- Modelled from the spec: `TargetPool.URL(cloud)` (defined in another
task file) renders the reference as a full resource locator; only the
fact that it is a non-empty URL string matters here. -/
def targetPoolURL (cloud : GCECloudSpec) (tp : TargetPool) : String :=
  "https://www.googleapis.com/compute/v1/projects/" ++ cloud.project ++
    "/regions/" ++ cloud.region ++ "/targetPools/" ++ valueOf tp.name

/-- Modelled from the spec: `BackendService.URL(cloud, region)`. -/
def backendServiceURL (cloud : GCECloudSpec) (region : String)
    (bs : BackendService) : String :=
  "https://www.googleapis.com/compute/v1/projects/" ++ cloud.project ++
    "/regions/" ++ region ++ "/backendServices/" ++ valueOf bs.name

/-- Modelled from the spec: `Network.URL(project)`. -/
def networkURL (project : String) (n : Network) : String :=
  "https://www.googleapis.com/compute/v1/projects/" ++ project ++
    "/global/networks/" ++ valueOf n.name

/-- Modelled from the spec: `Subnet.URL(project, region)`. -/
def subnetworkURL (project : String) (region : String) (s : Subnet) : String :=
  "https://www.googleapis.com/compute/v1/projects/" ++ project ++
    "/regions/" ++ region ++ "/subnetworks/" ++ valueOf s.name

/-- Modelled from the spec (design note 9): normalize an opaque resource
locator to a local identifier by taking its final path segment
(`lastComponent`, defined in a sibling file). -/
def lastComponent (s : String) : String :=
  match (s.splitOn "/").getLast? with
  | some t => t
  | none => s

/-- The `compute.ForwardingRule` request body fields populated by
`RenderGCE`. -/
structure ComputeForwardingRule where
  name : String
  ipProtocol : String
  networkTier : String
  portRange : String
  ports : List String
  loadBalancingScheme : String
  target : String
  backendService : String
  ipAddress : String
  network : String
  subnetwork : String
deriving DecidableEq, Repr

/-- One cloud API call issued by `RenderGCE`, in issue order. -/
inductive CloudCall : Type where
  | getAddress : String → CloudCall
  | insert : ComputeForwardingRule → CloudCall
  | waitOp : Nat → CloudCall
  | getRule : String → CloudCall
  | setLabels : String → String → Option (List (String × String)) → CloudCall
deriving DecidableEq, Repr

/-- Whether a trace contains an Insert call. -/
def hasInsert (calls : List CloudCall) : Bool :=
  calls.any fun c =>
    match c with
    | CloudCall.insert _ => true
    | _ => false

/-- Cloud responses consumed by `RenderGCE`: the `Address.find` reverse
lookup, the Insert operation handle, `WaitForOp` keyed by the handle,
the post-create Get (only its label fingerprint is read), and the
SetLabels operation handle. -/
structure GCERenderOracle where
  addressFindResp : Except GErr (Option Address)
  insertResp : Except GErr Nat
  waitResp : Nat → Option GErr
  getResp : Except GErr String
  setLabelsResp : Except GErr Nat

/-- The request body after the field-copying steps of `RenderGCE`
(name, protocol, network tier, port range, ports, scheme, target pool
URL), before the backend-service / IP / network steps. -/
def initialBody (cloud : GCECloudSpec) (e : ForwardingRule) : ComputeForwardingRule :=
  { name := valueOf e.name
    ipProtocol := e.ipProtocol
    networkTier := "PREMIUM"
    portRange := match e.portRange with
      | some pr => pr
      | none => ""
    ports := if e.ports.length > 0 then e.ports else []
    loadBalancingScheme := match e.loadBalancingScheme with
      | some s => s
      | none => ""
    target := match e.targetPool with
      | some tp => targetPoolURL cloud tp
      | none => ""
    backendService := ""
    ipAddress := ""
    network := ""
    subnetwork := "" }

/-- The IP-address resolution step of `RenderGCE` (use the Address
reference's literal IP, else look the Address up live and use its
assigned IP, failing if the lookup errors, finds nothing, or the found
address has no IP).  Returns the lookup calls issued and the body or
the early-return error. -/
def resolveIPLiteral (oracle : GCERenderOracle) (e : ForwardingRule)
    (o : ComputeForwardingRule) :
    List CloudCall × Except GErr ComputeForwardingRule :=
  match e.ipAddress with
  | none => ([], Except.ok o)
  | some addr =>
    if valueOf addr.ipAddress = "" then
      match oracle.addressFindResp with
      | Except.error _ =>
        ([CloudCall.getAddress (valueOf addr.name)],
         Except.error (GErr.msg "error finding Address"))
      | Except.ok none =>
        ([CloudCall.getAddress (valueOf addr.name)],
         Except.error (GErr.msg "Address was not found"))
      | Except.ok (some found) =>
        if valueOf found.ipAddress = "" then
          ([CloudCall.getAddress (valueOf addr.name)],
           Except.error (GErr.msg "Address had no IP"))
        else
          ([CloudCall.getAddress (valueOf addr.name)],
           Except.ok { o with ipAddress := valueOf found.ipAddress })
    else ([], Except.ok { o with ipAddress := valueOf addr.ipAddress })

/-- The IP steps of `RenderGCE`: resolve the Address reference, then
fail if a resolved IP and a rule-managed IP literal are both present,
else install the rule-managed IP if given. -/
def resolveIPAddress (oracle : GCERenderOracle) (e : ForwardingRule)
    (o : ComputeForwardingRule) :
    List CloudCall × Except GErr ComputeForwardingRule :=
  match resolveIPLiteral oracle e o with
  | (calls, Except.error err) => (calls, Except.error err)
  | (calls, Except.ok o1) =>
    match e.ruleIPAddress with
    | some rip =>
      if o1.ipAddress = "" then (calls, Except.ok { o1 with ipAddress := rip })
      else (calls, Except.error (GErr.msg "specified both IP Address and rule-managed IP address"))
    | none => (calls, Except.ok o1)

/-- The project used for network/subnetwork URLs: the network's own
project override, else the cloud project. -/
def netProject (cloud : GCECloudSpec) (net : Network) : String :=
  match net.project with
  | some p => p
  | none => cloud.project

/-- The network/subnetwork steps of `RenderGCE`.  The subnetwork branch
reads `e.Network.Project` without a nil check, so with a subnetwork set
and no network it dereferences a nil pointer: modelled as `none`
(panic). -/
def applyNetworkFields (cloud : GCECloudSpec) (e : ForwardingRule)
    (o : ComputeForwardingRule) : Option ComputeForwardingRule :=
  let o1 := match e.network with
    | some net => { o with network := networkURL (netProject cloud net) net }
    | none => o
  match e.subnetwork with
  | none => some o1
  | some sub =>
    match e.network with
    | none => none
    | some net =>
      some { o1 with subnetwork := subnetworkURL (netProject cloud net) cloud.region sub }

/-- The tail of the request-body construction after the target checks:
IP resolution then network fields.  `none` models the nil-pointer
panic. -/
def buildBodyRest (cloud : GCECloudSpec) (oracle : GCERenderOracle)
    (e : ForwardingRule) (o : ComputeForwardingRule) :
    Option (List CloudCall × Except GErr ComputeForwardingRule) :=
  match resolveIPAddress oracle e o with
  | (calls, Except.error err) => some (calls, Except.error err)
  | (calls, Except.ok o1) =>
    match applyNetworkFields cloud e o1 with
    | none => none
    | some o2 => some (calls, Except.ok o2)

/-- The request-body construction of `RenderGCE` (lines before the
create/update branch): copies fields, rejects a backend service when a
target pool already produced a non-empty target, resolves the IP, and
fills network fields.  `none` models the nil-pointer panic. -/
def buildBody (cloud : GCECloudSpec) (oracle : GCERenderOracle)
    (e : ForwardingRule) :
    Option (List CloudCall × Except GErr ComputeForwardingRule) :=
  let o := initialBody cloud e
  match e.backendService with
  | some bs =>
    if o.target = "" then
      buildBodyRest cloud oracle e { o with backendService := backendServiceURL cloud e.region bs }
    else some ([], Except.error (GErr.msg "cannot specify both forwarding rule targets"))
  | none => buildBodyRest cloud oracle e o

/-- The create path of `RenderGCE` (`a == nil`): Insert, wait; then if
desired labels are non-nil, Get the fresh rule for its fingerprint,
SetLabels with that fingerprint and the desired labels, and wait. -/
def renderCreate (oracle : GCERenderOracle) (e : ForwardingRule)
    (changes : ForwardingRule) (calls : List CloudCall)
    (o : ComputeForwardingRule) :
    Option (List CloudCall × ForwardingRule × Option GErr) :=
  let calls1 := calls ++ [CloudCall.insert o]
  match oracle.insertResp with
  | Except.error _ => some (calls1, changes, some (GErr.msg "error creating ForwardingRule"))
  | Except.ok op1 =>
    let calls2 := calls1 ++ [CloudCall.waitOp op1]
    match oracle.waitResp op1 with
    | some _ => some (calls2, changes, some (GErr.msg "error creating forwarding rule"))
    | none =>
      match e.labels with
      | none => some (calls2, changes, none)
      | some _ =>
        let calls3 := calls2 ++ [CloudCall.getRule (valueOf e.name)]
        match oracle.getResp with
        | Except.error _ => some (calls3, changes, some (GErr.msg "reading created ForwardingRule"))
        | Except.ok fp =>
          let calls4 := calls3 ++ [CloudCall.setLabels o.name fp e.labels]
          match oracle.setLabelsResp with
          | Except.error _ => some (calls4, changes, some (GErr.msg "setting ForwardingRule labels"))
          | Except.ok op2 =>
            let calls5 := calls4 ++ [CloudCall.waitOp op2]
            match oracle.waitResp op2 with
            | some _ => some (calls5, changes, some (GErr.msg "setting ForwardRule labels"))
            | none => some (calls5, changes, none)

/-- The update path of `RenderGCE` (`a != nil`): if the changeset
carries labels, SetLabels with the actual object's captured fingerprint
and the desired labels, wait, and clear labels from the changeset;
then fail unless the changeset equals the zero value. -/
def renderUpdate (oracle : GCERenderOracle) (e : ForwardingRule)
    (changes : ForwardingRule) (calls : List CloudCall)
    (o : ComputeForwardingRule) (a : ForwardingRule) :
    Option (List CloudCall × ForwardingRule × Option GErr) :=
  match changes.labels with
  | some _ =>
    let calls1 := calls ++ [CloudCall.setLabels o.name a.labelFingerprint e.labels]
    match oracle.setLabelsResp with
    | Except.error _ => some (calls1, changes, some (GErr.msg "setting ForwardingRule labels"))
    | Except.ok op1 =>
      let calls2 := calls1 ++ [CloudCall.waitOp op1]
      match oracle.waitResp op1 with
      | some _ => some (calls2, changes, some (GErr.msg "setting ForwardRule labels"))
      | none =>
        let changes2 := { changes with labels := none }
        if changes2 = emptyForwardingRule then some (calls2, changes2, none)
        else some (calls2, changes2, some (GErr.msg "cannot apply changes to ForwardingRule"))
  | none =>
    if changes = emptyForwardingRule then some (calls, changes, none)
    else some (calls, changes, some (GErr.msg "cannot apply changes to ForwardingRule"))

/-- Embeds `ForwardingRule.RenderGCE`.  Returns the issued cloud calls
in order, the final state of the (mutated) changeset, and the error, or
`none` when the code dereferences a nil pointer. -/
def ForwardingRule.renderGCE (cloud : GCECloudSpec) (oracle : GCERenderOracle)
    (a : Option ForwardingRule) (e changes : ForwardingRule) :
    Option (List CloudCall × ForwardingRule × Option GErr) :=
  match buildBody cloud oracle e with
  | none => none
  | some (calls, Except.error err) => some (calls, changes, some err)
  | some (calls, Except.ok o) =>
    match a with
    | none => renderCreate oracle e changes calls o
    | some ar => renderUpdate oracle e changes calls o ar

/-- The fields of the live `compute.ForwardingRule` read by `Find`. -/
structure ComputeFRData where
  name : String
  ipProtocol : String
  portRange : String
  ports : List String
  target : String
  ipAddress : String
  backendService : String
  loadBalancingScheme : String
  network : String
  subnetwork : String
  labels : Option (List (String × String))
  labelFingerprint : String
deriving DecidableEq, Repr

/-- Cloud responses consumed by `Find`: the ForwardingRules Get by
name, and the `findAddressByIP` reverse lookup. -/
structure FindOracle where
  getRuleResp : Except GErr ComputeFRData
  addressByIPResp : Except GErr (Option Address)
deriving Repr

/-- The actual `ForwardingRule` built by `Find` from the live object
`r`, with `addr` the reverse-looked-up Address used when `r` stores a
raw IP.  The desired Lifecycle is copied forward verbatim. -/
def mkActual (e : ForwardingRule) (r : ComputeFRData) (addr : Option Address) :
    ForwardingRule :=
  { name := some r.name
    lifecycle := e.lifecycle
    portRange := if r.portRange = "" then none else some r.portRange
    ports := if r.ports.length > 0 then r.ports else []
    targetPool := if r.target = "" then none else some { name := some (lastComponent r.target) }
    ipAddress := if r.ipAddress = "" then none else addr
    ruleIPAddress := none
    ipProtocol := r.ipProtocol
    loadBalancingScheme := if r.loadBalancingScheme = "" then none else some r.loadBalancingScheme
    network := if r.network = "" then none else some { name := some (lastComponent r.network), project := none }
    subnetwork := if r.subnetwork = "" then none else some { name := some (lastComponent r.subnetwork) }
    backendService := if r.backendService = "" then none else some { name := some (lastComponent r.backendService) }
    region := ""
    labels := r.labels
    labelFingerprint := r.labelFingerprint }

/-- Embeds `ForwardingRule.Find`: Get the rule by name; not-found
yields `(nil, nil)`; another Get failure yields an error; a raw IP on
the live object triggers the reverse Address lookup, whose failure
yields an error; otherwise the decoded actual resource is returned. -/
def ForwardingRule.find (oracle : FindOracle) (e : ForwardingRule) :
    Option ForwardingRule × Option GErr :=
  let name := valueOf e.name
  match oracle.getRuleResp with
  | Except.error g =>
    if gceIsNotFound g then (none, none)
    else (none, some (GErr.msg ("error getting ForwardingRule " ++ name)))
  | Except.ok r =>
    if r.ipAddress = "" then (some (mkActual e r none), none)
    else
      match oracle.addressByIPResp with
      | Except.error _ => (none, some (GErr.msg ("error finding Address with IP " ++ r.ipAddress)))
      | Except.ok addr => (some (mkActual e r addr), none)

/-! ## Concrete sample inputs used by witnesses and counterexamples -/

def sampleCloud : GCECloudSpec := { project := "proj1", region := "region1" }

def sampleOracle : GCERenderOracle :=
  { addressFindResp := Except.ok none
    insertResp := Except.ok 1
    waitResp := fun _ => none
    getResp := Except.ok "fp1"
    setLabelsResp := Except.ok 7 }

/-- A desired rule for the create path with labels and no references. -/
def sampleRule : ForwardingRule :=
  { emptyForwardingRule with
      name := some "fr1"
      region := "region1"
      labels := some [("env", "prod")] }

/-- The request body `RenderGCE` builds for `sampleRule`. -/
def sampleBodyO : ComputeForwardingRule :=
  { name := "fr1"
    ipProtocol := ""
    networkTier := "PREMIUM"
    portRange := ""
    ports := []
    loadBalancingScheme := ""
    target := ""
    backendService := ""
    ipAddress := ""
    network := ""
    subnetwork := "" }

/-- An actual resource as returned by Find, carrying a fingerprint. -/
def sampleActual : ForwardingRule :=
  { emptyForwardingRule with
      name := some "fr1"
      labelFingerprint := "oldfp" }

/-- A changeset carrying only labels. -/
def sampleChanges : ForwardingRule :=
  { emptyForwardingRule with labels := some [("env", "prod")] }

/-- A desired rule with a subnetwork but no network, and both targets
set, so the target mutual-exclusion check fires before the subnetwork
branch is reached. -/
def subnetRule : ForwardingRule :=
  { emptyForwardingRule with
      name := some "fr1"
      targetPool := some { name := some "tp1" }
      backendService := some { name := some "bs1" }
      subnetwork := some { name := some "sn1" } }

/-- A desired rule with only a subnetwork set. -/
def subnetOnlyRule : ForwardingRule :=
  { emptyForwardingRule with
      name := some "fr1"
      subnetwork := some { name := some "sn1" } }

/-- A desired rule with both a target pool and a backend service. -/
def bothTargetsRule : ForwardingRule :=
  { emptyForwardingRule with
      name := some "fr1"
      targetPool := some { name := some "tp1" }
      backendService := some { name := some "bs1" } }

/-- A Find oracle whose Get reports not-found. -/
def sampleFindOracleNF : FindOracle :=
  { getRuleResp := Except.error GErr.notFound
    addressByIPResp := Except.ok none }

/-! ## Helper lemmas -/

theorem targetPoolURL_ne_empty (cloud : GCECloudSpec) (tp : TargetPool) :
    targetPoolURL cloud tp ≠ "" := by
  intro h
  have h2 := congrArg String.length h
  simp [targetPoolURL, String.length_append] at h2
  have h3 : ("https://www.googleapis.com/compute/v1/projects/" : String).length ≠ 0 := by decide
  omega

theorem retryLoop_done_step {σ : Type} (op : Nat → σ → σ × Bool × Option OSErr)
    (fuel i : Nat) (s : σ) (h : (op i s).2.1 = true) :
    retryLoop op (fuel + 1) i s = op i s := by
  simp [retryLoop, h]

theorem retryLoop_const {σ : Type} (op : Nat → σ → σ × Bool × Option OSErr)
    (c : σ) (eo : Option OSErr) (h : ∀ i s, op i s = (c, false, eo)) :
    ∀ fuel i s, fuel ≠ 0 → retryLoop op fuel i s = (c, false, eo) := by
  intro fuel
  induction fuel with
  | zero => intro i s h0; exact absurd rfl h0
  | succ n ih =>
    intro i s _
    by_cases hn : n = 0
    · subst hn; simp [retryLoop, h]
    · simp [retryLoop, h, hn]
      exact ih (i + 1) c hn

theorem retryLoop_done_exists (op : Nat → Unit → Unit × Bool × Option OSErr) :
    ∀ fuel i, (retryLoop op fuel i ()).2.1 = true →
      ∃ j, i ≤ j ∧ j < i + fuel ∧ (op j ()).2.1 = true := by
  intro fuel
  induction fuel with
  | zero => intro i h; simp [retryLoop] at h
  | succ n ih =>
    intro i h
    by_cases hd : (op i ()).2.1 = true
    · exact ⟨i, Nat.le_refl i, by omega, hd⟩
    · rw [retryLoop] at h
      simp [hd] at h
      by_cases hn : n = 0
      · simp [hn] at h
      · simp [hn] at h
        have h2 : (retryLoop op n (i + 1) ()).2.1 = true := h
        obtain ⟨j, hj1, hj2, hj3⟩ := ih (i + 1) h2
        exact ⟨j, by omega, by omega, hj3⟩

/-! ## Claims -/

/-- C1 (counterexample): with a nil load-balancer client, ListLBs and
GetLBStats return a nil error (and an empty result) instead of the
capability-unavailable error, even though the underlying call would
fail — so not every adapter entry point fails as the claim states. -/
theorem nilClient_listLBs_no_error_cx :
    listLBs ⟨false⟩ 3 (fun _ => Except.error (OSErr.msg "x")) = ([], none) ∧
    getLBStats ⟨false⟩ 3 "lb1" (fun _ => Except.error (OSErr.msg "x")) = (none, none) ∧
    (none : Option OSErr) ≠ some lbUnavailableErr :=
  ⟨rfl, rfl, by simp⟩

/-- C1 (amended): if the load-balancer client handle is nil, every
OpenStack load-balancer adapter operation except ListLBs and GetLBStats
fails immediately with the distinguishing capability-unavailable error
("loadbalancer support not available in this deployment") without
attempting the underlying API call (the result does not depend on the
response oracle); ListLBs and GetLBStats instead return an empty
result with a nil error, likewise without attempting the call. -/
theorem nilClient_adapter_behavior (steps : Nat) (mid pid lid bid sid : String)
    (sv : Server)
    (r1 : Nat → Except OSErr Monitor) (r2 : Nat → Except OSErr (List Monitor))
    (r3 r4 r5 r6 : Nat → Option OSErr)
    (r7 r8 : Nat → Except OSErr LoadBalancer)
    (r9 : Nat → Except OSErr (List LoadBalancer)) (r10 : Nat → Except OSErr LBStats)
    (r11 : Nat → Except OSErr Pool) (r12 r13 : Nat → Except OSErr Member)
    (r14 : Nat → Except OSErr (Option Member)) (r15 : Nat → Except OSErr Member)
    (r16 : Nat → Except OSErr Pool) (r17 : Nat → Except OSErr (List Member))
    (r18 : Nat → Except OSErr (List Pool)) (r19 : Nat → Except OSErr (List Listener))
    (r20 : Nat → Except OSErr Listener) :
    createPoolMonitor ⟨false⟩ steps r1 = (none, some lbUnavailableErr) ∧
    listMonitors ⟨false⟩ steps r2 = ([], some lbUnavailableErr) ∧
    deleteMonitor ⟨false⟩ steps mid r3 = some lbUnavailableErr ∧
    deletePool ⟨false⟩ steps pid r4 = some lbUnavailableErr ∧
    deleteListener ⟨false⟩ steps lid r5 = some lbUnavailableErr ∧
    deleteLB ⟨false⟩ steps bid r6 = some lbUnavailableErr ∧
    createLB ⟨false⟩ steps r7 = (none, some lbUnavailableErr) ∧
    getLB ⟨false⟩ steps bid r8 = (none, some lbUnavailableErr) ∧
    getPool ⟨false⟩ steps pid r11 = (none, some lbUnavailableErr) ∧
    getPoolMember ⟨false⟩ steps pid sid r12 = (none, some lbUnavailableErr) ∧
    updateMemberInPool ⟨false⟩ pid sid r13 = (none, some lbUnavailableErr) ∧
    associateToPool ⟨false⟩ steps sv pid r14 r15 = (none, some lbUnavailableErr) ∧
    createPool ⟨false⟩ steps r16 = (none, some lbUnavailableErr) ∧
    listPoolMembers ⟨false⟩ steps pid r17 = ([], some lbUnavailableErr) ∧
    listPools ⟨false⟩ steps r18 = ([], some lbUnavailableErr) ∧
    listListeners ⟨false⟩ steps r19 = ([], some lbUnavailableErr) ∧
    createListener ⟨false⟩ steps r20 = (none, some lbUnavailableErr) ∧
    listLBs ⟨false⟩ steps r9 = ([], none) ∧
    getLBStats ⟨false⟩ steps bid r10 = (none, none) :=
  ⟨rfl, rfl, rfl, rfl, rfl, rfl, rfl, rfl, rfl, rfl, rfl, rfl, rfl, rfl, rfl, rfl, rfl,
   rfl, rfl⟩

/-- C7: for every delete adapter, a not-found response from the
underlying delete call is treated as success.  Deleting an identifier
twice yields success both times: the first call's delete succeeds and a
follow-up attempt observes not-found (responses `resp2`), the second
call observes not-found immediately (responses `resp`); both return a
nil error, for any positive step budget. -/
theorem delete_notFound_success (fuel : Nat) (mid pid lid bid : String)
    (resp resp2 : Nat → Option OSErr)
    (hgone : resp 0 = some OSErr.notFound)
    (h0 : resp2 0 = none) (h1 : resp2 1 = some OSErr.notFound) :
    deleteMonitor ⟨true⟩ (fuel + 1) mid resp = none ∧
    deletePool ⟨true⟩ (fuel + 1) pid resp = none ∧
    deleteListener ⟨true⟩ (fuel + 1) lid resp = none ∧
    deleteLB ⟨true⟩ (fuel + 1) bid resp = none ∧
    deleteMonitor ⟨true⟩ (fuel + 2) mid resp2 = none ∧
    deletePool ⟨true⟩ (fuel + 2) pid resp2 = none ∧
    deleteListener ⟨true⟩ (fuel + 2) lid resp2 = none ∧
    deleteLB ⟨true⟩ (fuel + 2) bid resp2 = none := by
  have h2 : fuel + 2 = (fuel + 1) + 1 := rfl
  refine ⟨?_, ?_, ?_, ?_, ?_, ?_, ?_, ?_⟩ <;>
    simp only [deleteMonitor, deletePool, deleteListener, deleteLB, retryWithBackoff, h2] <;>
    simp [retryLoop, deleteMonitorAttempt, deletePoolAttempt, deleteListenerAttempt,
      deleteLBAttempt, hgone, h0, h1, isNotFound]

/-- C10: the delete adapters succeed only when some attempt observes a
not-found response.  For each adapter: if every attempt's delete call
succeeds without error, the retries exhaust and the wait-timeout error
is returned even though the deletion requests succeeded; and a nil
result implies some attempt within the step budget saw not-found. -/
theorem delete_success_requires_notFound (steps : Nat) (mid pid lid bid : String)
    (respM respP respL respB : Nat → Option OSErr) (hs : steps ≠ 0) :
    ((∀ i, respM i = none) → deleteMonitor ⟨true⟩ steps mid respM = some OSErr.waitTimeout) ∧
    (deleteMonitor ⟨true⟩ steps mid respM = none → ∃ j, j < steps ∧ respM j = some OSErr.notFound) ∧
    ((∀ i, respP i = none) → deletePool ⟨true⟩ steps pid respP = some OSErr.waitTimeout) ∧
    (deletePool ⟨true⟩ steps pid respP = none → ∃ j, j < steps ∧ respP j = some OSErr.notFound) ∧
    ((∀ i, respL i = none) → deleteListener ⟨true⟩ steps lid respL = some OSErr.waitTimeout) ∧
    (deleteListener ⟨true⟩ steps lid respL = none → ∃ j, j < steps ∧ respL j = some OSErr.notFound) ∧
    ((∀ i, respB i = none) → deleteLB ⟨true⟩ steps bid respB = some OSErr.waitTimeout) ∧
    (deleteLB ⟨true⟩ steps bid respB = none → ∃ j, j < steps ∧ respB j = some OSErr.notFound) := by
  constructor
  · intro hall
    have hc : ∀ (i : Nat) (s : Unit),
        deleteMonitorAttempt respM i s = ((), false, none) := by
      intro i s; simp [deleteMonitorAttempt, hall i]
    simp [deleteMonitor, retryWithBackoff,
      retryLoop_const (deleteMonitorAttempt respM) () none hc steps 0 () hs]
  constructor
  · intro hres
    simp only [deleteMonitor, retryWithBackoff] at hres
    split at hres
    · simp at hres
    · split at hres
      · simp at hres
      · split at hres
        · rename_i h21
          obtain ⟨j, _, hj2, hj3⟩ := retryLoop_done_exists _ steps 0 h21
          simp only [deleteMonitorAttempt] at hj3
          cases hrj : respM j with
          | none => rw [hrj] at hj3; simp at hj3
          | some e =>
            rw [hrj] at hj3
            cases e with
            | notFound => exact ⟨j, by omega, hrj⟩
            | conflict => simp [isNotFound] at hj3
            | waitTimeout => simp [isNotFound] at hj3
            | msg s => simp [isNotFound] at hj3
        · simp at hres
  constructor
  · intro hall
    have hc : ∀ (i : Nat) (s : Unit),
        deletePoolAttempt respP i s = ((), false, none) := by
      intro i s; simp [deletePoolAttempt, hall i]
    simp [deletePool, retryWithBackoff,
      retryLoop_const (deletePoolAttempt respP) () none hc steps 0 () hs]
  constructor
  · intro hres
    simp only [deletePool, retryWithBackoff] at hres
    split at hres
    · simp at hres
    · split at hres
      · simp at hres
      · split at hres
        · rename_i h21
          obtain ⟨j, _, hj2, hj3⟩ := retryLoop_done_exists _ steps 0 h21
          simp only [deletePoolAttempt] at hj3
          cases hrj : respP j with
          | none => rw [hrj] at hj3; simp at hj3
          | some e =>
            rw [hrj] at hj3
            cases e with
            | notFound => exact ⟨j, by omega, hrj⟩
            | conflict => simp [isNotFound] at hj3
            | waitTimeout => simp [isNotFound] at hj3
            | msg s => simp [isNotFound] at hj3
        · simp at hres
  constructor
  · intro hall
    have hc : ∀ (i : Nat) (s : Unit),
        deleteListenerAttempt respL i s = ((), false, none) := by
      intro i s; simp [deleteListenerAttempt, hall i]
    simp [deleteListener, retryWithBackoff,
      retryLoop_const (deleteListenerAttempt respL) () none hc steps 0 () hs]
  constructor
  · intro hres
    simp only [deleteListener, retryWithBackoff] at hres
    split at hres
    · simp at hres
    · split at hres
      · simp at hres
      · split at hres
        · rename_i h21
          obtain ⟨j, _, hj2, hj3⟩ := retryLoop_done_exists _ steps 0 h21
          simp only [deleteListenerAttempt] at hj3
          cases hrj : respL j with
          | none => rw [hrj] at hj3; simp at hj3
          | some e =>
            rw [hrj] at hj3
            cases e with
            | notFound => exact ⟨j, by omega, hrj⟩
            | conflict => simp [isNotFound] at hj3
            | waitTimeout => simp [isNotFound] at hj3
            | msg s => simp [isNotFound] at hj3
        · simp at hres
  constructor
  · intro hall
    have hc : ∀ (i : Nat) (s : Unit),
        deleteLBAttempt respB i s = ((), false, none) := by
      intro i s; simp [deleteLBAttempt, hall i]
    simp [deleteLB, retryWithBackoff,
      retryLoop_const (deleteLBAttempt respB) () none hc steps 0 () hs]
  · intro hres
    simp only [deleteLB, retryWithBackoff] at hres
    split at hres
    · simp at hres
    · split at hres
      · simp at hres
      · split at hres
        · rename_i h21
          obtain ⟨j, _, hj2, hj3⟩ := retryLoop_done_exists _ steps 0 h21
          simp only [deleteLBAttempt] at hj3
          cases hrj : respB j with
          | none => rw [hrj] at hj3; simp at hj3
          | some e =>
            rw [hrj] at hj3
            cases e with
            | notFound => exact ⟨j, by omega, hrj⟩
            | conflict => simp [isNotFound] at hj3
            | waitTimeout => simp [isNotFound] at hj3
            | msg s => simp [isNotFound] at hj3
        · simp at hres

theorem retryLoop_step_cont {σ : Type} (op : Nat → σ → σ × Bool × Option OSErr)
    (fuel i : Nat) (s s2 : σ) (e : Option OSErr)
    (h : op i s = (s2, false, e)) (hf : fuel ≠ 0) :
    retryLoop op (fuel + 1) i s = retryLoop op fuel (i + 1) s2 := by
  simp [retryLoop, h, hf]

/-- C5: AssociateToPool is an idempotent upsert.  It first fetches the
membership identified by the pool and server; if the fetch errors or
returns no membership it creates the member and returns it; if the
membership exists it is returned unchanged with no mutation (the result
is the same for every create oracle).  Hence a second invocation with
the same server and pool — whose fetch now finds the membership —
yields the one membership and no error. -/
theorem associateToPool_idempotent_upsert (fuel : Nat) (sv : Server) (pid : String)
    (getA getB : Nat → Except OSErr (Option Member))
    (cr crA : Nat → Except OSErr Member) (m : Member)
    (hA : (∃ err, getA 0 = Except.error err) ∨ getA 0 = Except.ok none)
    (hcr : crA 0 = Except.ok m)
    (hB : getB 0 = Except.ok (some m)) :
    associateToPool ⟨true⟩ (fuel + 1) sv pid getA crA = (some m, none) ∧
    associateToPool ⟨true⟩ (fuel + 1) sv pid getB cr = (some m, none) := by
  constructor
  · have hstep : associateAttempt getA crA 0 none = (some m, true, none) := by
      rcases hA with ⟨err, he⟩ | he <;> simp [associateAttempt, he, hcr]
    simp [associateToPool, retryWithBackoff,
      retryLoop_done_step (associateAttempt getA crA) fuel 0 none (by rw [hstep]), hstep]
  · have hstep : associateAttempt getB cr 0 none = (some m, true, none) := by
      simp [associateAttempt, hB]
    simp [associateToPool, retryWithBackoff,
      retryLoop_done_step (associateAttempt getB cr) fuel 0 none (by rw [hstep]), hstep]

/-- C6 (counterexample): an update error other than not-found and 409
is not fatal: here attempt 0 fails with a generic error and attempt 1
succeeds, and UpdateMemberInPool returns the member with a nil error —
the generic error was retried, not propagated. -/
theorem updateMember_transient_error_cx :
    updateMemberInPool ⟨true⟩ "pool1" "mem1"
      (fun i => if i = 0 then Except.error (OSErr.msg "boom") else Except.ok ⟨"m1"⟩) =
    (some ⟨"m1"⟩, none) := rfl

/-- C6 (amended): UpdateMemberInPool classifies errors as follows: a
server-side not-found on the member is treated as success (nil error —
another agent's deletion is not surfaced); an HTTP 409 conflict is
retryable and never propagated (attempts exhausting while still
conflicting return the distinguished wait-timeout error); every other
update error is likewise retried rather than immediately fatal — the
wrapped error is propagated only when it is the error of the final
exhausted attempt (e.g. when every attempt fails with it), while a
transient other error followed by a successful attempt yields success. -/
theorem updateMember_error_classification (pid mid : String)
    (resp respC respF respT : Nat → Except OSErr Member) (m : Member) (s t : String)
    (hnf : resp 0 = Except.error OSErr.notFound)
    (hC : ∀ i, respC i = Except.error OSErr.conflict)
    (hF : ∀ i, respF i = Except.error (OSErr.msg s))
    (hT0 : respT 0 = Except.error (OSErr.msg t))
    (hT1 : respT 1 = Except.ok m) :
    updateMemberInPool ⟨true⟩ pid mid resp = (none, none) ∧
    updateMemberInPool ⟨true⟩ pid mid respC = (none, some OSErr.waitTimeout) ∧
    updateMemberInPool ⟨true⟩ pid mid respF =
      (none, some (OSErr.msg "failed to update pool membership")) ∧
    updateMemberInPool ⟨true⟩ pid mid respT = (some m, none) := by
  have h10 : memberBackoffSteps = 9 + 1 := rfl
  constructor
  · have hstep : updateMemberAttempt resp 0 none = (none, true, none) := by
      simp [updateMemberAttempt, hnf, isNotFound]
    simp [updateMemberInPool, retryWithBackoff, h10,
      retryLoop_done_step (updateMemberAttempt resp) 9 0 none (by rw [hstep]), hstep]
  constructor
  · have hc : ∀ (i : Nat) (st : Option Member),
        updateMemberAttempt respC i st = (none, false, none) := by
      intro i st; simp [updateMemberAttempt, hC i, isNotFound, isConflict]
    simp [updateMemberInPool, retryWithBackoff,
      retryLoop_const (updateMemberAttempt respC) none none hc memberBackoffSteps 0 none
        (by decide)]
  constructor
  · have hc : ∀ (i : Nat) (st : Option Member),
        updateMemberAttempt respF i st =
          (none, false, some (OSErr.msg "failed to update pool membership")) := by
      intro i st; simp [updateMemberAttempt, hF i, isNotFound, isConflict]
    simp [updateMemberInPool, retryWithBackoff,
      retryLoop_const (updateMemberAttempt respF) none
        (some (OSErr.msg "failed to update pool membership")) hc memberBackoffSteps 0 none
        (by decide)]
  · have hstep0 : updateMemberAttempt respT 0 none =
        (none, false, some (OSErr.msg "failed to update pool membership")) := by
      simp [updateMemberAttempt, hT0, isNotFound, isConflict]
    have hstep1 : updateMemberAttempt respT 1 none = (some m, true, none) := by
      simp [updateMemberAttempt, hT1]
    have e1 : retryWithBackoff memberBackoffSteps (updateMemberAttempt respT) none =
        (some m, true, none) := by
      show retryLoop (updateMemberAttempt respT) (9 + 1) 0 none = (some m, true, none)
      calc retryLoop (updateMemberAttempt respT) (9 + 1) 0 none
          = retryLoop (updateMemberAttempt respT) 9 1 none :=
            retryLoop_step_cont (updateMemberAttempt respT) 9 0 none none
              (some (OSErr.msg "failed to update pool membership")) hstep0 (by decide)
        _ = updateMemberAttempt respT 1 none :=
            retryLoop_done_step (updateMemberAttempt respT) 8 1 none (by rw [hstep1])
        _ = (some m, true, none) := hstep1
    simp [updateMemberInPool, e1]

/-- C8: when the cloud Get reports not-found, Find returns (nil, nil) —
not-found is never surfaced as an error; and whenever Find returns a
non-nil error, the actual resource is nil and the error stems from a
Get failure other than not-found or from a failed reverse Address
lookup. -/
theorem find_notFound_nil_nil (oracle : FindOracle) (e : ForwardingRule) :
    (oracle.getRuleResp = Except.error GErr.notFound →
      ForwardingRule.find oracle e = (none, none)) ∧
    (∀ err, (ForwardingRule.find oracle e).2 = some err →
      (ForwardingRule.find oracle e).1 = none ∧
      ((∃ g, oracle.getRuleResp = Except.error g ∧ g ≠ GErr.notFound) ∨
       (∃ r g, oracle.getRuleResp = Except.ok r ∧ r.ipAddress ≠ "" ∧
         oracle.addressByIPResp = Except.error g))) := by
  constructor
  · intro h
    simp [ForwardingRule.find, h, gceIsNotFound]
  · intro err herr
    cases hg : oracle.getRuleResp with
    | error g =>
      cases g with
      | notFound =>
        have heq : ForwardingRule.find oracle e = (none, none) := by
          simp [ForwardingRule.find, hg, gceIsNotFound]
        rw [heq] at herr; simp at herr
      | msg s =>
        constructor
        · simp [ForwardingRule.find, hg, gceIsNotFound]
        · exact Or.inl ⟨GErr.msg s, rfl, by simp⟩
    | ok r =>
      by_cases hip : r.ipAddress = ""
      · have heq : ForwardingRule.find oracle e = (some (mkActual e r none), none) := by
          simp [ForwardingRule.find, hg, hip]
        rw [heq] at herr; simp at herr
      · cases ha : oracle.addressByIPResp with
        | error g2 =>
          constructor
          · simp [ForwardingRule.find, hg, hip, ha]
          · exact Or.inr ⟨r, g2, rfl, hip, rfl⟩
        | ok addr =>
          have heq : ForwardingRule.find oracle e = (some (mkActual e r addr), none) := by
            simp [ForwardingRule.find, hg, hip, ha]
          rw [heq] at herr; simp at herr

/-- C8 witness: Find on a not-found Get returns (nil, nil). -/
theorem find_notFound_nil_nil_witness :
    ForwardingRule.find sampleFindOracleNF emptyForwardingRule = (none, none) :=
  (find_notFound_nil_nil sampleFindOracleNF emptyForwardingRule).1 rfl

theorem buildBodyRest_of_resolveErr (cloud : GCECloudSpec) (oracle : GCERenderOracle)
    (e : ForwardingRule) (o : ComputeForwardingRule) (calls : List CloudCall) (err : GErr)
    (hres : resolveIPAddress oracle e o = (calls, Except.error err)) :
    buildBodyRest cloud oracle e o = some (calls, Except.error err) := by
  simp [buildBodyRest, hres]

theorem buildBody_both_targets (cloud : GCECloudSpec) (oracle : GCERenderOracle)
    (e : ForwardingRule) (tp : TargetPool) (bs : BackendService)
    (h1 : e.targetPool = some tp) (h2 : e.backendService = some bs) :
    buildBody cloud oracle e =
      some ([], Except.error (GErr.msg "cannot specify both forwarding rule targets")) := by
  simp [buildBody, h2, initialBody, h1, targetPoolURL_ne_empty]

theorem resolveIPAddress_both_set (oracle : GCERenderOracle) (e : ForwardingRule)
    (o : ComputeForwardingRule) (addr : Address) (rip : String)
    (ha : e.ipAddress = some addr) (hr : e.ruleIPAddress = some rip) :
    ∃ calls err, resolveIPAddress oracle e o = (calls, Except.error err) ∧
      hasInsert calls = false := by
  by_cases hlit : valueOf addr.ipAddress = ""
  · cases hf : oracle.addressFindResp with
    | error g =>
      have hres : resolveIPAddress oracle e o =
          ([CloudCall.getAddress (valueOf addr.name)],
           Except.error (GErr.msg "error finding Address")) := by
        simp [resolveIPAddress, resolveIPLiteral, ha, hr, hlit, hf]
      exact ⟨_, _, hres, rfl⟩
    | ok found =>
      cases found with
      | none =>
        have hres : resolveIPAddress oracle e o =
            ([CloudCall.getAddress (valueOf addr.name)],
             Except.error (GErr.msg "Address was not found")) := by
          simp [resolveIPAddress, resolveIPLiteral, ha, hr, hlit, hf]
        exact ⟨_, _, hres, rfl⟩
      | some fnd =>
        by_cases h2 : valueOf fnd.ipAddress = ""
        · have hres : resolveIPAddress oracle e o =
              ([CloudCall.getAddress (valueOf addr.name)],
               Except.error (GErr.msg "Address had no IP")) := by
            simp [resolveIPAddress, resolveIPLiteral, ha, hr, hlit, hf, h2]
          exact ⟨_, _, hres, rfl⟩
        · have hres : resolveIPAddress oracle e o =
              ([CloudCall.getAddress (valueOf addr.name)],
               Except.error (GErr.msg "specified both IP Address and rule-managed IP address")) := by
            simp [resolveIPAddress, resolveIPLiteral, ha, hr, hlit, hf, h2]
          exact ⟨_, _, hres, rfl⟩
  · have hres : resolveIPAddress oracle e o =
        ([], Except.error (GErr.msg "specified both IP Address and rule-managed IP address")) := by
      simp [resolveIPAddress, resolveIPLiteral, ha, hr, hlit]
    exact ⟨_, _, hres, rfl⟩

/-- C3: on the create path (and in fact before the create/update branch
is even reached), RenderGCE returns an error and issues no Insert when
both the target-pool and the backend-service references are set (both
resolve to non-empty targets, the pool URL being never empty), and
likewise when an IP-address reference and a rule-managed IP literal are
both set (whatever the Address resolution yields). -/
theorem renderGCE_mutual_exclusion (cloud : GCECloudSpec) (oracle : GCERenderOracle)
    (a : Option ForwardingRule) (e changes : ForwardingRule) :
    (∀ tp bs, e.targetPool = some tp → e.backendService = some bs →
      ForwardingRule.renderGCE cloud oracle a e changes =
        some ([], changes, some (GErr.msg "cannot specify both forwarding rule targets"))) ∧
    (∀ addr rip, e.ipAddress = some addr → e.ruleIPAddress = some rip →
      ∃ calls err, ForwardingRule.renderGCE cloud oracle a e changes =
        some (calls, changes, some err) ∧ hasInsert calls = false) := by
  constructor
  · intro tp bs h1 h2
    simp [ForwardingRule.renderGCE, buildBody_both_targets cloud oracle e tp bs h1 h2]
  · intro addr rip ha hr
    cases hbs : e.backendService with
    | none =>
      obtain ⟨calls, err, hres, hins⟩ :=
        resolveIPAddress_both_set oracle e (initialBody cloud e) addr rip ha hr
      have hbb : buildBody cloud oracle e = some (calls, Except.error err) := by
        simp [buildBody, hbs, buildBodyRest, hres]
      exact ⟨calls, err, by simp [ForwardingRule.renderGCE, hbb], hins⟩
    | some bs =>
      by_cases ht : (initialBody cloud e).target = ""
      · obtain ⟨calls, err, hres, hins⟩ :=
          resolveIPAddress_both_set oracle e
            ({ initialBody cloud e with
                backendService := backendServiceURL cloud e.region bs }) addr rip ha hr
        have hbb : buildBody cloud oracle e = some (calls, Except.error err) := by
          have hstep : buildBody cloud oracle e =
              buildBodyRest cloud oracle e
                { initialBody cloud e with
                    backendService := backendServiceURL cloud e.region bs } := by
            simp only [buildBody, hbs]
            rw [if_pos ht]
          rw [hstep, buildBodyRest_of_resolveErr cloud oracle e _ calls err hres]
        exact ⟨calls, err, by simp [ForwardingRule.renderGCE, hbb], hins⟩
      · have hbb : buildBody cloud oracle e =
            some ([], Except.error (GErr.msg "cannot specify both forwarding rule targets")) := by
          simp [buildBody, hbs, ht]
        exact ⟨[], GErr.msg "cannot specify both forwarding rule targets",
          by simp [ForwardingRule.renderGCE, hbb], rfl⟩

/-- C3 witness: a rule with both targets set is rejected with no calls. -/
theorem renderGCE_mutual_exclusion_witness :
    ForwardingRule.renderGCE sampleCloud sampleOracle none bothTargetsRule emptyForwardingRule =
      some ([], emptyForwardingRule, some (GErr.msg "cannot specify both forwarding rule targets")) :=
  (renderGCE_mutual_exclusion sampleCloud sampleOracle none bothTargetsRule
    emptyForwardingRule).1 { name := some "tp1" } { name := some "bs1" } rfl rfl

/-- C2: on the update path (actual non-nil), when the changeset carries
labels, exactly one SetLabels call is issued, carrying the actual
object's captured label fingerprint together with the desired labels,
followed by one wait; labels are then cleared from the changeset, and
the call succeeds exactly when no other changeset field remains
non-zero (otherwise the changes-not-fully-consumed error is returned). -/
theorem renderGCE_update_labels (cloud : GCECloudSpec) (oracle : GCERenderOracle)
    (ar e changes : ForwardingRule) (calls0 : List CloudCall)
    (o : ComputeForwardingRule) (l : List (String × String)) (op1 : Nat)
    (hbuild : buildBody cloud oracle e = some (calls0, Except.ok o))
    (hl : changes.labels = some l)
    (hset : oracle.setLabelsResp = Except.ok op1)
    (hwait : oracle.waitResp op1 = none) :
    ForwardingRule.renderGCE cloud oracle (some ar) e changes =
      some (calls0 ++ [CloudCall.setLabels o.name ar.labelFingerprint e.labels,
                       CloudCall.waitOp op1],
            { changes with labels := none },
            if { changes with labels := none } = emptyForwardingRule then none
            else some (GErr.msg "cannot apply changes to ForwardingRule")) := by
  simp only [ForwardingRule.renderGCE, hbuild, renderUpdate, hl, hset, hwait]
  split <;> rename_i hc <;> simp [hc]

/-- C2 witness: a changeset carrying only labels is applied with one
SetLabels call using the actual resource's fingerprint, and is fully
consumed, so the update succeeds. -/
theorem renderGCE_update_labels_witness :
    ForwardingRule.renderGCE sampleCloud sampleOracle (some sampleActual) sampleRule
      sampleChanges =
      some ([CloudCall.setLabels "fr1" "oldfp" (some [("env", "prod")]), CloudCall.waitOp 7],
            emptyForwardingRule, none) :=
  renderGCE_update_labels sampleCloud sampleOracle sampleActual sampleRule sampleChanges
    [] sampleBodyO [("env", "prod")] 7 rfl rfl rfl rfl

/-- C4 (counterexample): the create-with-labels sequence comprises five
cloud calls (Insert, wait, Get, SetLabels, wait), not four as the claim
counts them. -/
theorem renderGCE_create_labels_call_count_cx :
    ForwardingRule.renderGCE sampleCloud sampleOracle none sampleRule emptyForwardingRule =
      some ([CloudCall.insert sampleBodyO, CloudCall.waitOp 1, CloudCall.getRule "fr1",
             CloudCall.setLabels "fr1" "fp1" (some [("env", "prod")]), CloudCall.waitOp 7],
            emptyForwardingRule, none) ∧
    ([CloudCall.insert sampleBodyO, CloudCall.waitOp 1, CloudCall.getRule "fr1",
      CloudCall.setLabels "fr1" "fp1" (some [("env", "prod")]), CloudCall.waitOp 7] :
        List CloudCall).length ≠ 4 :=
  ⟨rfl, by decide⟩

/-- C4 (amended): on the create path with desired labels present, after
the request body is built (any Address-lookup read issued during body
construction precedes the Insert), exactly these five cloud calls occur
in this fixed order: Insert, wait for the operation, Get the freshly
created rule, SetLabels carrying exactly the freshly fetched
fingerprint together with the desired labels, wait for the label
operation; with labels absent the label sub-sequence is skipped and
only Insert and its wait occur. -/
theorem renderGCE_create_labels_sequence (cloud : GCECloudSpec) (oracle : GCERenderOracle)
    (e changes : ForwardingRule) (calls0 : List CloudCall) (o : ComputeForwardingRule)
    (l : List (String × String)) (op1 : Nat) (fp : String) (op2 : Nat)
    (hbuild : buildBody cloud oracle e = some (calls0, Except.ok o))
    (hins : oracle.insertResp = Except.ok op1)
    (hw1 : oracle.waitResp op1 = none)
    (hget : oracle.getResp = Except.ok fp)
    (hset : oracle.setLabelsResp = Except.ok op2)
    (hw2 : oracle.waitResp op2 = none) :
    (e.labels = some l →
      ForwardingRule.renderGCE cloud oracle none e changes =
        some (calls0 ++ [CloudCall.insert o, CloudCall.waitOp op1,
                         CloudCall.getRule (valueOf e.name),
                         CloudCall.setLabels o.name fp e.labels, CloudCall.waitOp op2],
              changes, none)) ∧
    (e.labels = none →
      ForwardingRule.renderGCE cloud oracle none e changes =
        some (calls0 ++ [CloudCall.insert o, CloudCall.waitOp op1], changes, none)) := by
  constructor
  · intro hl
    simp [ForwardingRule.renderGCE, hbuild, renderCreate, hins, hw1, hl, hget, hset, hw2]
  · intro hl
    simp [ForwardingRule.renderGCE, hbuild, renderCreate, hins, hw1, hl]

/-- C4 witness: the concrete create-with-labels run issues the five
calls in order, the SetLabels call carrying the freshly fetched
fingerprint. -/
theorem renderGCE_create_labels_sequence_witness :
    ForwardingRule.renderGCE sampleCloud sampleOracle none sampleRule emptyForwardingRule =
      some ([CloudCall.insert sampleBodyO, CloudCall.waitOp 1, CloudCall.getRule "fr1",
             CloudCall.setLabels "fr1" "fp1" (some [("env", "prod")]), CloudCall.waitOp 7],
            emptyForwardingRule, none) :=
  (renderGCE_create_labels_sequence sampleCloud sampleOracle sampleRule emptyForwardingRule
    [] sampleBodyO [("env", "prod")] 1 "fp1" 7 rfl rfl rfl rfl rfl rfl).1 rfl

/-- C9 (counterexample): not every desired rule with a subnetwork set
and no network makes RenderGCE dereference a nil pointer: with both
targets also set, the target mutual-exclusion check fires first and
RenderGCE returns an error instead of panicking. -/
theorem renderGCE_subnetwork_error_cx :
    subnetRule.subnetwork = some { name := some "sn1" } ∧
    subnetRule.network = none ∧
    ForwardingRule.renderGCE sampleCloud sampleOracle none subnetRule emptyForwardingRule =
      some ([], emptyForwardingRule,
            some (GErr.msg "cannot specify both forwarding rule targets")) :=
  ⟨rfl, rfl, rfl⟩

/-- C9 (amended): RenderGCE requires Network to be non-nil whenever
Subnetwork is non-nil: for every desired rule with a subnetwork set, no
network, and configurations passing the earlier checks (here: no
backend service and no Address reference), RenderGCE dereferences a nil
pointer (modelled as the panic outcome `none`) instead of returning an
error — an unstated precondition of its totality. -/
theorem renderGCE_subnetwork_requires_network (cloud : GCECloudSpec)
    (oracle : GCERenderOracle) (a : Option ForwardingRule) (e changes : ForwardingRule)
    (sub : Subnet)
    (hsub : e.subnetwork = some sub) (hnet : e.network = none)
    (hbs : e.backendService = none) (hip : e.ipAddress = none) :
    ForwardingRule.renderGCE cloud oracle a e changes = none := by
  have hbb : buildBody cloud oracle e = none := by
    cases hrip : e.ruleIPAddress with
    | none =>
      simp [buildBody, hbs, buildBodyRest, resolveIPAddress, resolveIPLiteral, hip, hrip,
        applyNetworkFields, hnet, hsub]
    | some rip =>
      simp [buildBody, hbs, buildBodyRest, resolveIPAddress, resolveIPLiteral, hip, hrip,
        applyNetworkFields, hnet, hsub, initialBody]
  simp [ForwardingRule.renderGCE, hbb]

/-- C9 witness: a rule with only a subnetwork set reaches the
subnetwork branch and hits the nil-pointer dereference. -/
theorem renderGCE_subnetwork_requires_network_witness :
    ForwardingRule.renderGCE sampleCloud sampleOracle none subnetOnlyRule
      emptyForwardingRule = none :=
  renderGCE_subnetwork_requires_network sampleCloud sampleOracle none subnetOnlyRule
    emptyForwardingRule { name := some "sn1" } rfl rfl rfl rfl

/-- C5 witness: a first association (fetch finds nothing, create
succeeds) and a second association (fetch finds the membership) both
return the one membership with no error. -/
theorem associateToPool_idempotent_upsert_witness :
    associateToPool ⟨true⟩ 1 ⟨"srv1"⟩ "pool1"
        (fun _ => Except.error OSErr.notFound) (fun _ => Except.ok ⟨"m1"⟩) =
      (some ⟨"m1"⟩, none) ∧
    associateToPool ⟨true⟩ 1 ⟨"srv1"⟩ "pool1"
        (fun _ => Except.ok (some ⟨"m1"⟩)) (fun _ => Except.error (OSErr.msg "no")) =
      (some ⟨"m1"⟩, none) :=
  associateToPool_idempotent_upsert 0 ⟨"srv1"⟩ "pool1"
    (fun _ => Except.error OSErr.notFound) (fun _ => Except.ok (some ⟨"m1"⟩))
    (fun _ => Except.error (OSErr.msg "no")) (fun _ => Except.ok ⟨"m1"⟩) ⟨"m1"⟩
    (Or.inl ⟨OSErr.notFound, rfl⟩) rfl rfl

/-- C6 witness: an update hitting a not-found member returns success. -/
theorem updateMember_error_classification_witness :
    updateMemberInPool ⟨true⟩ "pool1" "mem1" (fun _ => Except.error OSErr.notFound) =
      (none, none) :=
  (updateMember_error_classification "pool1" "mem1"
    (fun _ => Except.error OSErr.notFound) (fun _ => Except.error OSErr.conflict)
    (fun _ => Except.error (OSErr.msg "boom"))
    (fun i => if i = 0 then Except.error (OSErr.msg "zap") else Except.ok ⟨"m1"⟩)
    ⟨"m1"⟩ "boom" "zap" rfl (fun _ => rfl) (fun _ => rfl) rfl rfl).1

/-- C7 witness: an already-gone monitor deletes with a nil error, and a
fresh delete whose follow-up attempt sees not-found also returns nil. -/
theorem delete_notFound_success_witness :
    deleteMonitor ⟨true⟩ 1 "m1" (fun _ => some OSErr.notFound) = none ∧
    deleteMonitor ⟨true⟩ 2 "m1" (fun i => if i = 0 then none else some OSErr.notFound) =
      none :=
  ⟨(delete_notFound_success 0 "m1" "p1" "l1" "b1"
      (fun _ => some OSErr.notFound) (fun i => if i = 0 then none else some OSErr.notFound)
      rfl rfl rfl).1,
   (delete_notFound_success 0 "m1" "p1" "l1" "b1"
      (fun _ => some OSErr.notFound) (fun i => if i = 0 then none else some OSErr.notFound)
      rfl rfl rfl).2.2.2.2.1⟩

/-- C10 witness: a delete whose underlying calls always succeed (never
report not-found) exhausts its single step and returns wait-timeout. -/
theorem delete_success_requires_notFound_witness :
    deleteMonitor ⟨true⟩ 1 "m1" (fun _ => none) = some OSErr.waitTimeout :=
  (delete_success_requires_notFound 1 "m1" "p1" "l1" "b1"
    (fun _ => none) (fun _ => none) (fun _ => none) (fun _ => none) (by decide)).1
    (fun _ => rfl)
